import Mathlib

/-!
Verification of the mutation-control engine of the order-management
repository against its natural-language specification.  The Lean
definitions below shallowly embed the relevant source functions: the
versioned record stores for orders and costs, the pending-change
workflow, the permission resolver, the login rate limiter and the
session-lifetime policy.  Timestamps are modelled as natural numbers of
milliseconds (the JavaScript `Date.now()` scale), document stores as
functions from document id to an optional record, and thrown errors as
an `Except` error value.
-/

namespace TM4U

/-- A dynamic-field value: the open map `dynamic_fields` holds
arbitrarily typed cell values (null, number or text). -/
inductive Value where
  | vNull : Value
  | vNum : Int → Value
  | vStr : String → Value
deriving DecidableEq, Repr

/-- Record status, one of active / completed / cancelled. -/
inductive Status where
  | active : Status
  | completed : Status
  | cancelled : Status
deriving DecidableEq, Repr

/-- An order / cost record as stored in its collection: month, status,
optimistic-locking version, creator identity, timestamps, soft-delete
marks and the open `dynamic_fields` map. -/
structure Record where
  month : String
  status : Status
  version : Nat
  dynamic_fields : String → Option Value
  createdBy : String
  createdByName : String
  createdAt : Nat
  updatedAt : Nat
  deletedAt : Option Nat
  deletedBy : Option String

/-- A document collection: id to optional record. -/
abbrev Store := String → Option Record

/-- The thrown error conditions of the engine, by kind. -/
inductive Err where
  | notFound : Err
  | versionConflict (expected actual : Nat) : Err
  | recordLocked : Err
  | forbidden : Err
  | duplicatePending : Err
  | notPending : Err
  | expired : Err
deriving DecidableEq, Repr

/-- The update payload written by the single-field update transaction:
the named dynamic field is set to the new value, the version becomes
`expectedVersion + 1` and updatedAt is stamped with the current time. -/
def patchRecord (r : Record) (field : String) (value : Value)
    (version now : Nat) : Record :=
  { r with
    dynamic_fields := fun f => if f = field then some value else r.dynamic_fields f
    version := version + 1
    updatedAt := now }

/-- The optimistic-locking transaction body shared verbatim by
updateOrder (orders store) and updateCost (costs store): read the
document; throw not-found if absent; throw a version conflict carrying
the expected and the server version if they differ; throw the
completed-status lock; otherwise write the single-field patch. -/
def updateFieldTx (store : Store) (recordId field : String) (value : Value)
    (version now : Nat) : Except Err Store :=
  match store recordId with
  | none => .error .notFound
  | some r =>
    if r.version ≠ version then
      .error (.versionConflict version r.version)
    else if r.status = .completed then
      .error .recordLocked
    else
      .ok fun k =>
        if k = recordId then some (patchRecord r field value version now)
        else store k

/-- updateOrder of the orders store: runs the optimistic-locking
single-field update transaction. -/
def updateOrder (store : Store) (orderId field : String) (value : Value)
    (version now : Nat) : Except Err Store :=
  updateFieldTx store orderId field value version now

/-- Role gate of the costs store (isAuthorized): cost data is
restricted to manager and super_admin. -/
def isAuthorized (role : String) : Bool :=
  role == "manager" || role == "super_admin"

/-- updateCost of the costs store: the collection-level role gate is
checked first, then the same optimistic-locking transaction as
updateOrder. -/
def updateCost (role : String) (store : Store) (costId field : String)
    (value : Value) (version now : Nat) : Except Err Store :=
  if isAuthorized role then updateFieldTx store costId field value version now
  else .error .forbidden

/-- The recovery payload: deletedAt and deletedBy are cleared, the
version is incremented from the server version and updatedAt stamped. -/
def recoverPatch (r : Record) (now : Nat) : Record :=
  { r with
    deletedAt := none
    deletedBy := none
    version := r.version + 1
    updatedAt := now }

/-- The recovery transaction body shared by recoverOrder and
recoverCost: read the document; throw not-found if absent; otherwise
clear the soft-delete marks and bump the version.  The source performs
no check that the record is actually deleted. -/
def recoverTx (store : Store) (recordId : String) (now : Nat) :
    Except Err Store :=
  match store recordId with
  | none => .error .notFound
  | some r =>
    .ok fun k => if k = recordId then some (recoverPatch r now) else store k

/-- recoverOrder of the orders store. -/
def recoverOrder (store : Store) (orderId : String) (now : Nat) :
    Except Err Store :=
  recoverTx store orderId now

/-- recoverCost of the costs store: role gate, then the recovery
transaction. -/
def recoverCost (role : String) (store : Store) (costId : String)
    (now : Nat) : Except Err Store :=
  if isAuthorized role then recoverTx store costId now
  else .error .forbidden

/-- The soft-delete transaction body: read the document; throw
not-found if absent; otherwise stamp deletedAt / deletedBy and bump the
version. -/
def softDeleteTx (store : Store) (recordId uid : String) (now : Nat) :
    Except Err Store :=
  match store recordId with
  | none => .error .notFound
  | some r =>
    .ok fun k =>
      if k = recordId then
        some { r with
               deletedAt := some now
               deletedBy := some uid
               version := r.version + 1
               updatedAt := now }
      else store k

/-- softDeleteCost of the costs store: role gate, then the soft-delete
transaction. -/
def softDeleteCost (role : String) (store : Store) (costId uid : String)
    (now : Nat) : Except Err Store :=
  if isAuthorized role then softDeleteTx store costId uid now
  else .error .forbidden

/-- createCost of the costs store: role gate, then insertion of a fresh
record with version 1 and clear soft-delete marks. -/
def createCost (role : String) (store : Store) (newId month : String)
    (status : Status) (fields : String → Option Value) (uid uname : String)
    (now : Nat) : Except Err Store :=
  if isAuthorized role then
    .ok fun k =>
      if k = newId then
        some { month := month
               status := status
               version := 1
               dynamic_fields := fields
               createdBy := uid
               createdByName := uname
               createdAt := now
               updatedAt := now
               deletedAt := none
               deletedBy := none }
      else store k
  else .error .forbidden

/-- The record reached through a successful store operation, at a given
document id. -/
def okAt (res : Except Err Store) (k : String) : Option (Option Record) :=
  res.toOption.map fun s => s k

/-- C1: the single-field update (updateOrder / updateCost) fails with a
not-found error when the record is absent; fails with a version
conflict reporting the expected and the actual version when the
expected version differs from the stored one; fails with the
record-locked error when the stored status is completed; and on success
stores a record whose version is expectedVersion + 1, whose named
dynamic field holds the new value and whose updatedAt is stamped, other
fields and other documents untouched; updateCost runs the identical
transaction behind the role gate. -/
theorem C1_updateField_semantics (store : Store) (id field : String)
    (value : Value) (v now : Nat) :
    (store id = none →
      updateOrder store id field value v now = .error .notFound) ∧
    (∀ r, store id = some r → r.version ≠ v →
      updateOrder store id field value v now =
        .error (.versionConflict v r.version)) ∧
    (∀ r, store id = some r → r.version = v → r.status = .completed →
      updateOrder store id field value v now = .error .recordLocked) ∧
    (∀ r, store id = some r → r.version = v → r.status ≠ .completed →
      okAt (updateOrder store id field value v now) id =
        some (some (patchRecord r field value v now)) ∧
      (∀ k, k ≠ id →
        okAt (updateOrder store id field value v now) k = some (store k)) ∧
      (patchRecord r field value v now).dynamic_fields field = some value ∧
      (patchRecord r field value v now).version = v + 1 ∧
      (patchRecord r field value v now).updatedAt = now) ∧
    (∀ role, isAuthorized role = true →
      updateCost role store id field value v now =
        updateOrder store id field value v now) := by
  refine ⟨?_, ?_, ?_, ?_, ?_⟩
  · intro h
    simp [updateOrder, updateFieldTx, h]
  · intro r hr hv
    simp [updateOrder, updateFieldTx, hr, hv]
  · intro r hr hv hs
    simp [updateOrder, updateFieldTx, hr, hv, hs]
  · intro r hr hv hs
    refine ⟨?_, ?_, ?_, rfl, rfl⟩
    · simp only [updateOrder, updateFieldTx, hr, hv, hs, okAt]
      simp [hs]
      exact ⟨_, rfl, by simp⟩
    · intro k hk
      simp only [updateOrder, updateFieldTx, hr, hv, hs, okAt]
      simp [hs]
      exact ⟨_, rfl, by simp [hk]⟩
    · simp [patchRecord]
  · intro role hrole
    simp [updateCost, updateOrder, hrole]

/-- Concrete one-record orders store used by the C1 witness. -/
def c1Rec : Record :=
  { month := "2024-01"
    status := .active
    version := 1
    dynamic_fields := fun _ => none
    createdBy := "u1"
    createdByName := "User One"
    createdAt := 0
    updatedAt := 0
    deletedAt := none
    deletedBy := none }

/-- Concrete store for the C1 witness. -/
def c1Store : Store := fun k => if k = "o1" then some c1Rec else none

/-- Witness for C1: on the concrete one-record store, the update with
the matching expected version 1 succeeds and writes version 2 with the
new value, while an update expecting version 2 fails with the version
conflict reporting expected 2 and actual 1. -/
theorem C1_updateField_semantics_witness :
    okAt (updateOrder c1Store "o1" "price" (.vNum 110) 1 5) "o1" =
      some (some (patchRecord c1Rec "price" (.vNum 110) 1 5)) ∧
    (patchRecord c1Rec "price" (.vNum 110) 1 5).version = 2 ∧
    (patchRecord c1Rec "price" (.vNum 110) 1 5).dynamic_fields "price" =
      some (.vNum 110) ∧
    updateOrder c1Store "o1" "price" (.vNum 120) 2 6 =
      .error (.versionConflict 2 1) := by
  have h := C1_updateField_semantics c1Store "o1" "price" (.vNum 110) 1 5
  have h2 := C1_updateField_semantics c1Store "o1" "price" (.vNum 120) 2 6
  have hs := (h.2.2.2.1 c1Rec rfl rfl (by simp [c1Rec]))
  exact ⟨hs.1, hs.2.2.2.1, hs.2.2.1, h2.2.1 c1Rec rfl (by simp [c1Rec])⟩

/-- Lifecycle status of a pending change. -/
inductive PStatus where
  | pending : PStatus
  | approved : PStatus
  | rejected : PStatus
  | withdrawn : PStatus
  | expired : PStatus
deriving DecidableEq, Repr

/-- A pending-change document: target, field, base snapshot (value and
version), proposed value, requester identity, lifecycle fields and the
7-day expiry stamp. -/
structure Pending where
  id : String
  targetCollection : String
  targetId : String
  orderMonth : String
  field : String
  baseValue : Value
  baseVersion : Nat
  newValue : Value
  requestedBy : String
  requestedByName : String
  requestedAt : Nat
  status : PStatus
  statusUpdatedAt : Option Nat
  reviewedBy : Option String
  rejectionCount : Nat
  expiresAt : Nat
deriving DecidableEq, Repr

/-- Seven days in milliseconds, the pending-change expiry horizon. -/
def pendingExpiryMs : Nat := 7 * 24 * 60 * 60 * 1000

/-- pendingForField getter of the pendings store: the first entry for
the given target and field that is still in the pending status. -/
def pendingForField (l : List Pending) (targetId field : String) :
    Option Pending :=
  l.find? fun p =>
    decide (p.targetId = targetId ∧ p.field = field ∧ p.status = .pending)

/-- The argument object destructured by createPending. -/
structure PendingArgs where
  targetCollection : String
  targetId : String
  orderMonth : String
  field : String
  baseValue : Value
  baseVersion : Nat
  newValue : Value
deriving DecidableEq, Repr

/-- The fresh pending-change document written by createPending: status
pending, no reviewer, zero rejections, expiry seven days out. -/
def proposedPending (a : PendingArgs) (uid uname : String) (now : Nat)
    (newId : String) : Pending :=
  { id := newId
    targetCollection := a.targetCollection
    targetId := a.targetId
    orderMonth := a.orderMonth
    field := a.field
    baseValue := a.baseValue
    baseVersion := a.baseVersion
    newValue := a.newValue
    requestedBy := uid
    requestedByName := uname
    requestedAt := now
    status := .pending
    statusUpdatedAt := none
    reviewedBy := none
    rejectionCount := 0
    expiresAt := now + pendingExpiryMs }

/-- createPending of the pendings store: first the duplicate check
against an existing pending entry for the same target and field, then
the cost-collection role gate, then insertion of the fresh pending
document. -/
def createPending (role uid uname : String) (l : List Pending)
    (a : PendingArgs) (now : Nat) (newId : String) :
    Except Err (List Pending) :=
  if (pendingForField l a.targetId a.field).isSome then
    .error .duplicatePending
  else if a.targetCollection = "costs" ∧ isAuthorized role = false then
    .error .forbidden
  else
    .ok (l ++ [proposedPending a uid uname now newId])

/-- approvePending of the pendings store (client side): the manager
role gate, then the status flip of the named document to approved with
reviewer identity and a status timestamp. -/
def approvePending (role uid : String) (l : List Pending)
    (pendingId : String) (now : Nat) : Except Err (List Pending) :=
  if isAuthorized role = false then .error .forbidden
  else if (l.find? fun p => p.id == pendingId).isSome then
    .ok (l.map fun p =>
      if p.id = pendingId then
        { p with status := .approved, reviewedBy := some uid
                 statusUpdatedAt := some now }
      else p)
  else .error .notFound

/-- rejectPending of the pendings store: the manager role gate, then
the status flip to rejected with an incremented rejection count. -/
def rejectPending (role uid : String) (l : List Pending)
    (pendingId : String) (now : Nat) : Except Err (List Pending) :=
  if isAuthorized role = false then .error .forbidden
  else if (l.find? fun p => p.id == pendingId).isSome then
    .ok (l.map fun p =>
      if p.id = pendingId then
        { p with status := .rejected, reviewedBy := some uid
                 statusUpdatedAt := some now
                 rejectionCount := p.rejectionCount + 1 }
      else p)
  else .error .notFound

/-- withdrawPending of the pendings store: only the original requester
may withdraw, only while the entry is still pending. -/
def withdrawPending (uid : String) (l : List Pending) (pendingId : String)
    (now : Nat) : Except Err (List Pending) :=
  match l.find? fun p => p.id == pendingId with
  | none => .error .notFound
  | some p =>
    if p.requestedBy ≠ uid then .error .forbidden
    else if p.status ≠ .pending then .error .notPending
    else
      .ok (l.map fun q =>
        if q.id = pendingId then
          { q with status := .withdrawn, statusUpdatedAt := some now }
        else q)

/-- Modelled from the spec: the approval of a pending change over the
combined state.  The client-side approvePending only runs the manager
role gate and flips the document status; the server-side transaction
that validates the entry and applies the field update is a Cloud
Function that is not part of the client source, so it is modelled here
from the spec's approve operation: reject forbidden unless the reviewer
is a manager; reject not-found when no entry carries the id; reject the
not-pending error unless the entry's status is pending; reject the
expired error when the approval time is past the entry's expiresAt,
transitioning the entry's status to expired instead of applying; and
otherwise apply the update through the record store's
optimistic-locking single-field update using the proposal's baseVersion
as the expected version, marking the entry approved with the reviewer
identity and a status timestamp.  An error other than expired leaves
the pending list unchanged. -/
def approveAndApply (role uid : String) (store : Store) (l : List Pending)
    (pendingId : String) (now : Nat) :
    Except (Err × List Pending) (Store × List Pending) :=
  if isAuthorized role = false then .error (.forbidden, l)
  else
    match l.find? fun p => p.id == pendingId with
    | none => .error (.notFound, l)
    | some p =>
      if p.status ≠ .pending then .error (.notPending, l)
      else if p.expiresAt < now then
        .error (.expired, l.map fun q =>
          if q.id = pendingId then { q with status := .expired } else q)
      else
        match updateFieldTx store p.targetId p.field p.newValue
            p.baseVersion now with
        | .error e => .error (e, l)
        | .ok store1 =>
          .ok (store1, l.map fun q =>
            if q.id = pendingId then
              { q with status := .approved, reviewedBy := some uid
                       statusUpdatedAt := some now }
            else q)

/-- Rejection over the combined state: rejectPending updates only the
pending document; the record store is carried through untouched. -/
def rejectFlow (role uid : String) (st : Store × List Pending)
    (pendingId : String) (now : Nat) : Except Err (Store × List Pending) :=
  (rejectPending role uid st.2 pendingId now).map fun l => (st.1, l)

/-- Withdrawal over the combined state: withdrawPending updates only
the pending document; the record store is carried through untouched. -/
def withdrawFlow (uid : String) (st : Store × List Pending)
    (pendingId : String) (now : Nat) : Except Err (Store × List Pending) :=
  (withdrawPending uid st.2 pendingId now).map fun l => (st.1, l)

/-- The record reached through a successful combined-state approval, at
a given document id. -/
def approvedRecordAt (res : Except (Err × List Pending) (Store × List Pending))
    (k : String) : Option (Option Record) :=
  res.toOption.map fun st => st.1 k

/-- Number of pending-status entries for a given target and field. -/
def countPending (l : List Pending) (targetId field : String) : Nat :=
  (l.filter fun p =>
    decide (p.targetId = targetId ∧ p.field = field ∧ p.status = .pending)).length

/-- C2 (amended): for a record whose stored version equals the
proposal's baseVersion and whose status is not completed, and a propose
that satisfies its own preconditions (no duplicate pending for the
target and field, cost proposals only by managers, a fresh document
id), propose followed by approve applied with the proposal's
baseVersion as the expected version, no later than the proposal's
expiry (seven days after the propose), yields a record whose field
equals newValue and whose version equals baseVersion + 1; reject and
withdraw act on the pending document only, leaving the record store
unchanged. -/
theorem C2_round_trip (store : Store) (l : List Pending) (a : PendingArgs)
    (r : Record) (role rrole uid ruid uname newId : String) (now now2 : Nat)
    (hrec : store a.targetId = some r)
    (hver : r.version = a.baseVersion)
    (hstat : r.status ≠ .completed)
    (hdup : pendingForField l a.targetId a.field = none)
    (hcost : a.targetCollection = "costs" → isAuthorized role = true)
    (hrev : isAuthorized rrole = true)
    (hid : ∀ p ∈ l, p.id ≠ newId)
    (hexp : now2 ≤ now + pendingExpiryMs) :
    createPending role uid uname l a now newId =
      .ok (l ++ [proposedPending a uid uname now newId]) ∧
    approvedRecordAt
      (approveAndApply rrole ruid store
        (l ++ [proposedPending a uid uname now newId]) newId now2)
      a.targetId =
      some (some (patchRecord r a.field a.newValue a.baseVersion now2)) ∧
    (rejectFlow rrole ruid (store, l ++ [proposedPending a uid uname now newId])
        newId now2).map Prod.fst =
      (rejectPending rrole ruid (l ++ [proposedPending a uid uname now newId])
        newId now2).map (fun _ => store) ∧
    (withdrawFlow uid (store, l ++ [proposedPending a uid uname now newId])
        newId now2).map Prod.fst =
      (withdrawPending uid (l ++ [proposedPending a uid uname now newId])
        newId now2).map (fun _ => store) := by
  have hgate : ¬(a.targetCollection = "costs" ∧ isAuthorized role = false) := by
    rintro ⟨h1, h2⟩
    rw [hcost h1] at h2
    simp at h2
  have hfindL : (l ++ [proposedPending a uid uname now newId]).find?
      (fun p => p.id == newId) = some (proposedPending a uid uname now newId) := by
    rw [List.find?_append]
    have h1 : l.find? (fun p => p.id == newId) = none := by
      rw [List.find?_eq_none]
      intro p hp
      simp [hid p hp]
    rw [h1]
    simp [proposedPending]
  have happ : updateFieldTx store a.targetId a.field a.newValue
      a.baseVersion now2 =
      .ok (fun k =>
        if k = a.targetId then
          some (patchRecord r a.field a.newValue a.baseVersion now2)
        else store k) := by
    simp only [updateFieldTx, hrec]
    rw [if_neg (by simp [hver]), if_neg hstat]
  refine ⟨?_, ?_, ?_, ?_⟩
  · simp [createPending, hdup, hgate]
  · rw [approveAndApply, if_neg (by simp [hrev])]
    simp only [hfindL]
    rw [if_neg (by simp [proposedPending]),
      if_neg (by simp only [proposedPending]; exact Nat.not_lt.mpr hexp)]
    simp only [proposedPending]
    simp only [happ]
    simp [approvedRecordAt]
    exact ⟨_, ⟨_, rfl⟩, by simp⟩
  · cases h : rejectPending rrole ruid
      (l ++ [proposedPending a uid uname now newId]) newId now2 <;>
      simp [rejectFlow, h, Except.map]
  · cases h : withdrawPending uid
      (l ++ [proposedPending a uid uname now newId]) newId now2 <;>
      simp [withdrawFlow, h, Except.map]

/-- Concrete record for the C2 witness: active, version 1. -/
def c2Rec : Record :=
  { month := "2024-01"
    status := .active
    version := 1
    dynamic_fields := fun _ => none
    createdBy := "u1"
    createdByName := "User One"
    createdAt := 0
    updatedAt := 0
    deletedAt := none
    deletedBy := none }

/-- Concrete store for the C2 witness. -/
def c2Store : Store := fun k => if k = "o1" then some c2Rec else none

/-- Concrete propose arguments for the C2 witness: an orders proposal
with baseVersion 1. -/
def c2Args : PendingArgs :=
  { targetCollection := "orders"
    targetId := "o1"
    orderMonth := "2024-01"
    field := "price"
    baseValue := .vNum 100
    baseVersion := 1
    newValue := .vNum 110 }

/-- Witness for C2: the round trip on a live version-1 record produces
the proposed value at version 2, and reject and withdraw keep the
store. -/
theorem C2_round_trip_witness :
    createPending "jr_sales" "u1" "U" [] c2Args 0 "p1" =
      .ok ([] ++ [proposedPending c2Args "u1" "U" 0 "p1"]) ∧
    approvedRecordAt
      (approveAndApply "manager" "m1" c2Store
        ([] ++ [proposedPending c2Args "u1" "U" 0 "p1"]) "p1" 5) "o1" =
      some (some (patchRecord c2Rec "price" (.vNum 110) 1 5)) ∧
    (rejectFlow "manager" "m1" (c2Store, [] ++ [proposedPending c2Args "u1" "U" 0 "p1"])
        "p1" 5).map Prod.fst =
      (rejectPending "manager" "m1" ([] ++ [proposedPending c2Args "u1" "U" 0 "p1"])
        "p1" 5).map (fun _ => c2Store) ∧
    (withdrawFlow "u1" (c2Store, [] ++ [proposedPending c2Args "u1" "U" 0 "p1"])
        "p1" 5).map Prod.fst =
      (withdrawPending "u1" ([] ++ [proposedPending c2Args "u1" "U" 0 "p1"])
        "p1" 5).map (fun _ => c2Store) :=
  C2_round_trip c2Store [] c2Args c2Rec "jr_sales" "manager" "u1" "m1" "U"
    "p1" 0 5 rfl rfl (by decide) rfl (by decide) (by decide) (by simp)
    (by decide)

/-- Concrete completed record refuting the unrestricted C2 round trip. -/
def c2xRec : Record :=
  { month := "2024-01"
    status := .completed
    version := 1
    dynamic_fields := fun _ => none
    createdBy := "u1"
    createdByName := "User One"
    createdAt := 0
    updatedAt := 0
    deletedAt := none
    deletedBy := none }

/-- Concrete store holding the completed record. -/
def c2xStore : Store := fun k => if k = "o1" then some c2xRec else none

/-- Concrete propose arguments targeting the completed record. -/
def c2xArgs : PendingArgs :=
  { targetCollection := "orders"
    targetId := "o1"
    orderMonth := "2024-01"
    field := "price"
    baseValue := .vNum 100
    baseVersion := 1
    newValue := .vNum 110 }

/-- Counterexample to C2 as stated: on a record with completed status
the proposal is accepted, but the approval (performed well before the
proposal's expiry) fails with the record-locked error and leaves the
pending list as proposed, so the round trip leaves the record at
version 1 with the field unset instead of producing newValue at
version 2. -/
theorem C2_counterexample :
    createPending "sr_sales" "u1" "U" [] c2xArgs 0 "p1" =
      .ok [proposedPending c2xArgs "u1" "U" 0 "p1"] ∧
    approveAndApply "manager" "m1" c2xStore
      [proposedPending c2xArgs "u1" "U" 0 "p1"] "p1" 5 =
      .error (.recordLocked, [proposedPending c2xArgs "u1" "U" 0 "p1"]) ∧
    (c2xStore "o1").map Record.version = some 1 ∧
    (c2xStore "o1").map (fun r => r.dynamic_fields "price") = some none :=
  ⟨rfl, rfl, rfl, rfl⟩

/-- C3: a propose call for a (targetId, field) pair that already has a
pending-status entry fails with the duplicate-pending error and inserts
nothing, and createPending preserves the invariant that at most one
pending-status entry exists per (targetId, field) pair. -/
theorem C3_pending_uniqueness (role uid uname : String) (l : List Pending)
    (a : PendingArgs) (now : Nat) (newId : String) :
    ((∃ p ∈ l, p.targetId = a.targetId ∧ p.field = a.field ∧
        p.status = .pending) →
      createPending role uid uname l a now newId = .error .duplicatePending) ∧
    (∀ l1, createPending role uid uname l a now newId = .ok l1 →
      (∀ tid f, countPending l tid f ≤ 1) →
      ∀ tid f, countPending l1 tid f ≤ 1) := by
  constructor
  · rintro ⟨p, hp, hprops⟩
    have hsome : (pendingForField l a.targetId a.field).isSome = true := by
      rw [pendingForField, List.find?_isSome]
      exact ⟨p, hp, by simpa using hprops⟩
    simp [createPending, hsome]
  · intro l1 hok hun tid f
    cases hpf : pendingForField l a.targetId a.field with
    | some p => simp [createPending, hpf] at hok
    | none =>
      by_cases h2 : a.targetCollection = "costs" ∧ isAuthorized role = false
      · simp [createPending, hpf, h2] at hok
      · simp [createPending, hpf, h2] at hok
        subst hok
        have hall : ∀ p ∈ l, ¬(p.targetId = a.targetId ∧ p.field = a.field ∧
            p.status = .pending) := by
          intro p hp
          have := List.find?_eq_none.mp hpf p hp
          simpa using this
        rw [countPending, List.filter_append, List.length_append]
        by_cases hm : (proposedPending a uid uname now newId).targetId = tid ∧
            (proposedPending a uid uname now newId).field = f ∧
            (proposedPending a uid uname now newId).status = .pending
        · have ht : tid = a.targetId := by rw [← hm.1]; rfl
          have hf : f = a.field := by rw [← hm.2.1]; rfl
          subst ht; subst hf
          have hzero : (l.filter fun p =>
              decide (p.targetId = a.targetId ∧ p.field = a.field ∧
                p.status = .pending)).length = 0 := by
            rw [List.length_eq_zero, List.filter_eq_nil_iff]
            intro p hp
            simpa using hall p hp
          rw [hzero]
          simp [hm]
        · have hone : (([proposedPending a uid uname now newId]).filter fun p =>
              decide (p.targetId = tid ∧ p.field = f ∧
                p.status = .pending)).length = 0 := by
            simp [hm]
          rw [hone]
          simpa [countPending] using hun tid f

/-- Concrete propose arguments for the C3 witness. -/
def c3Args : PendingArgs :=
  { targetCollection := "orders"
    targetId := "o1"
    orderMonth := "2024-01"
    field := "price"
    baseValue := .vNum 100
    baseVersion := 1
    newValue := .vNum 110 }

/-- The pending entry already present in the C3 witness state. -/
def c3Pend : Pending := proposedPending c3Args "u1" "U" 0 "pA"

/-- Witness for C3: with one pending entry on (o1, price) in place, a
second proposal for the same pair fails with the duplicate-pending
error, and the state created by the first proposal satisfies the
at-most-one invariant. -/
theorem C3_pending_uniqueness_witness :
    createPending "sr_sales" "u2" "V" [c3Pend] c3Args 3 "pB" =
      .error .duplicatePending ∧
    countPending (([] : List Pending) ++ [proposedPending c3Args "u1" "U" 0 "pA"])
      "o1" "price" ≤ 1 := by
  constructor
  · exact (C3_pending_uniqueness "sr_sales" "u2" "V" [c3Pend] c3Args 3 "pB").1
      ⟨c3Pend, by simp, by decide⟩
  · exact (C3_pending_uniqueness "sr_sales" "u1" "U" [] c3Args 0 "pA").2
      ([] ++ [proposedPending c3Args "u1" "U" 0 "pA"]) rfl
      (fun _ _ => Nat.zero_le 1) "o1" "price"

/-- C7 (amended): for a caller whose role is neither manager nor
super_admin, every costs-store operation (createCost, updateCost,
softDeleteCost, recoverCost) fails with the forbidden error before
touching any state; createPending with target collection costs also
fails and inserts nothing, but its duplicate check runs first, so the
error is duplicate-pending when a pending entry already targets the
same (targetId, field) pair and forbidden otherwise. -/
theorem C7_cost_collection_gate (role : String)
    (h : isAuthorized role = false) :
    (∀ store newId month status fields uid uname now,
      createCost role store newId month status fields uid uname now =
        .error .forbidden) ∧
    (∀ store id field value v now,
      updateCost role store id field value v now = .error .forbidden) ∧
    (∀ store id uid now,
      softDeleteCost role store id uid now = .error .forbidden) ∧
    (∀ store id now, recoverCost role store id now = .error .forbidden) ∧
    (∀ l a now newId uid uname, a.targetCollection = "costs" →
      createPending role uid uname l a now newId =
        .error (if (pendingForField l a.targetId a.field).isSome then
          .duplicatePending else .forbidden)) := by
  refine ⟨?_, ?_, ?_, ?_, ?_⟩
  · intro store newId month status fields uid uname now
    simp [createCost, h]
  · intro store id field value v now
    simp [updateCost, h]
  · intro store id uid now
    simp [softDeleteCost, h]
  · intro store id now
    simp [recoverCost, h]
  · intro l a now newId uid uname hc
    by_cases hd : (pendingForField l a.targetId a.field).isSome
    · simp [createPending, hd]
    · simp [createPending, hd, hc, h]

/-- The pending entry already present in the C7 witness state. -/
def c7Pend : Pending :=
  proposedPending
    { targetCollection := "costs"
      targetId := "c1"
      orderMonth := "2024-01"
      field := "amount"
      baseValue := .vNum 50
      baseVersion := 1
      newValue := .vNum 60 } "m0" "M" 0 "pA"

/-- Cost-proposal arguments used by the C7 witness. -/
def c7Args : PendingArgs :=
  { targetCollection := "costs"
    targetId := "c1"
    orderMonth := "2024-01"
    field := "amount"
    baseValue := .vNum 50
    baseVersion := 1
    newValue := .vNum 70 }

/-- Witness for C7 at the jr_sales role: every costs-store operation is
forbidden, a cost proposal without a duplicate is forbidden, and a cost
proposal whose (targetId, field) pair already has a pending entry fails
with the duplicate-pending error. -/
theorem C7_cost_collection_gate_witness :
    createCost "jr_sales" (fun _ => none) "c1" "2024-01" .active
      (fun _ => none) "u1" "U" 0 = .error .forbidden ∧
    updateCost "jr_sales" (fun _ => none) "c1" "amount" (.vNum 60) 1 0 =
      .error .forbidden ∧
    softDeleteCost "jr_sales" (fun _ => none) "c1" "u1" 0 =
      .error .forbidden ∧
    recoverCost "jr_sales" (fun _ => none) "c1" 0 = .error .forbidden ∧
    createPending "jr_sales" "u1" "U" [] c7Args 3 "pB" = .error .forbidden ∧
    createPending "jr_sales" "u1" "U" [c7Pend] c7Args 3 "pB" =
      .error .duplicatePending := by
  have t := C7_cost_collection_gate "jr_sales" (by decide)
  exact ⟨t.1 (fun _ => none) "c1" "2024-01" .active (fun _ => none) "u1" "U" 0,
    t.2.1 (fun _ => none) "c1" "amount" (.vNum 60) 1 0,
    t.2.2.1 (fun _ => none) "c1" "u1" 0,
    t.2.2.2.1 (fun _ => none) "c1" 0,
    t.2.2.2.2 [] c7Args 3 "pB" "u1" "U" rfl,
    t.2.2.2.2 [c7Pend] c7Args 3 "pB" "u1" "U" rfl⟩

/-- Counterexample to C7 as stated: a jr_sales cost proposal on a
(targetId, field) pair that already has a pending entry fails with the
duplicate-pending error, which is not the forbidden error the claim
promises for every cost operation by a non-manager. -/
theorem C7_counterexample :
    createPending "jr_sales" "u9" "W" [c7Pend] c7Args 4 "p9" =
      .error .duplicatePending ∧
    Err.duplicatePending ≠ Err.forbidden :=
  ⟨rfl, by decide⟩

/-- C8 (amended): recovery (recoverOrder / recoverCost) fails with the
not-found error when the record is absent; on any present record —
deleted or not, since the source performs no not-deleted check — it
clears deletedAt and deletedBy and increments the version by one,
leaving other documents untouched; recoverCost runs the identical
transaction behind the role gate. -/
theorem C8_recover_semantics (store : Store) (id : String) (now : Nat) :
    (store id = none → recoverOrder store id now = .error .notFound) ∧
    (∀ r, store id = some r →
      okAt (recoverOrder store id now) id = some (some (recoverPatch r now)) ∧
      (recoverPatch r now).deletedAt = none ∧
      (recoverPatch r now).deletedBy = none ∧
      (recoverPatch r now).version = r.version + 1 ∧
      (∀ k, k ≠ id → okAt (recoverOrder store id now) k = some (store k))) ∧
    (∀ role, isAuthorized role = true →
      recoverCost role store id now = recoverOrder store id now) := by
  refine ⟨?_, ?_, ?_⟩
  · intro h
    simp [recoverOrder, recoverTx, h]
  · intro r hr
    refine ⟨?_, rfl, rfl, rfl, ?_⟩
    · simp only [recoverOrder, recoverTx, hr, okAt]
      simp [Except.toOption]
    · intro k hk
      simp only [recoverOrder, recoverTx, hr, okAt]
      simp [Except.toOption, hk]
  · intro role hrole
    simp [recoverCost, recoverOrder, hrole]

/-- Soft-deleted record for the C8 witness. -/
def c8Rec : Record :=
  { month := "2024-01"
    status := .active
    version := 3
    dynamic_fields := fun _ => none
    createdBy := "u1"
    createdByName := "User One"
    createdAt := 0
    updatedAt := 2
    deletedAt := some 2
    deletedBy := some "m1" }

/-- Concrete store for the C8 witness. -/
def c8Store : Store := fun k => if k = "o1" then some c8Rec else none

/-- Witness for C8: recovering the soft-deleted record clears the
delete marks and bumps the version from 3 to 4, and recovery of an
absent id fails with the not-found error. -/
theorem C8_recover_semantics_witness :
    okAt (recoverOrder c8Store "o1" 9) "o1" =
      some (some (recoverPatch c8Rec 9)) ∧
    (recoverPatch c8Rec 9).deletedAt = none ∧
    (recoverPatch c8Rec 9).version = 4 ∧
    recoverOrder c8Store "zz" 9 = .error .notFound := by
  have t := C8_recover_semantics c8Store "o1" 9
  have hs := t.2.1 c8Rec rfl
  exact ⟨hs.1, hs.2.1, hs.2.2.2.1, (C8_recover_semantics c8Store "zz" 9).1 rfl⟩

/-- A record that is not deleted, used to refute the not-deleted check
claimed by C8. -/
def c8xRec : Record :=
  { month := "2024-01"
    status := .active
    version := 1
    dynamic_fields := fun _ => none
    createdBy := "u1"
    createdByName := "User One"
    createdAt := 0
    updatedAt := 0
    deletedAt := none
    deletedBy := none }

/-- Concrete store holding the non-deleted record. -/
def c8xStore : Store := fun k => if k = "o1" then some c8xRec else none

/-- Counterexample to C8 as stated: recovering a record whose deletedAt
is null does not fail with a not-deleted error; it succeeds and bumps
the version from 1 to 2. -/
theorem C8_counterexample :
    c8xRec.deletedAt = none ∧
    (recoverOrder c8xStore "o1" 9).toOption.isSome = true ∧
    okAt (recoverOrder c8xStore "o1" 9) "o1" =
      some (some (recoverPatch c8xRec 9)) ∧
    (recoverPatch c8xRec 9).version = 2 :=
  ⟨rfl, rfl, rfl, rfl⟩

/-- Maximum failed attempts tolerated inside the rate window. -/
def rateLimitMaxAttempts : Nat := 5

/-- The trailing rate window, fifteen minutes in milliseconds. -/
def rateLimitWindowMs : Nat := 15 * 60 * 1000

/-- Per-identity login-guard state: the list of recorded failed-attempt
timestamps and the optional lockout-until timestamp. -/
structure AttemptData where
  attempts : List Nat
  lockoutUntil : Option Nat
deriving DecidableEq, Repr

/-- The result object of checkRateLimit. -/
structure RateLimitResult where
  allowed : Bool
  remainingMinutes : Nat
deriving DecidableEq, Repr

/-- Math.ceil of a millisecond count divided into whole minutes. -/
def ceilMinutes (ms : Nat) : Nat := (ms + 59999) / 60000

/-- The attempt timestamps inside the trailing window, the filter both
checkRateLimit and recordFailedAttempt apply. -/
def recentAttempts (d : AttemptData) (now : Nat) : List Nat :=
  d.attempts.filter fun t => decide (now - t < rateLimitWindowMs)

/-- getFailedAttempts: the number of recorded failed attempts inside
the trailing window. -/
def getFailedAttempts (d : AttemptData) (now : Nat) : Nat :=
  (recentAttempts d now).length

/-- The part of checkRateLimit reached when no lockout is active: if
the in-window attempt count has reached the maximum, save the pruned
attempts with a fresh lockout and deny with the full window in
minutes; otherwise allow with zero remaining minutes, saving nothing. -/
def checkRecent (d : AttemptData) (now : Nat) :
    RateLimitResult × AttemptData :=
  if rateLimitMaxAttempts ≤ (recentAttempts d now).length then
    (⟨false, ceilMinutes rateLimitWindowMs⟩,
     ⟨recentAttempts d now, some (now + rateLimitWindowMs)⟩)
  else (⟨true, 0⟩, d)

/-- checkRateLimit: while a stored lockout lies in the future, deny
with the minutes remaining until it expires; otherwise fall through to
the in-window attempt count check. -/
def checkRateLimit (d : AttemptData) (now : Nat) :
    RateLimitResult × AttemptData :=
  match d.lockoutUntil with
  | some lu =>
    if now < lu then (⟨false, ceilMinutes (lu - now)⟩, d)
    else checkRecent d now
  | none => checkRecent d now

/-- recordFailedAttempt: prune the attempts to the trailing window and
append the current timestamp, keeping any stored lockout. -/
def recordFailedAttempt (d : AttemptData) (now : Nat) : AttemptData :=
  ⟨recentAttempts d now ++ [now], d.lockoutUntil⟩

/-- The login-guard state after clearFailedAttempts removed the storage
key: an empty attempt history and no lockout. -/
def clearedAttempts : AttemptData := ⟨[], none⟩

/-- Whether no stored lockout lies in the future at the given time. -/
def noActiveLockout (d : AttemptData) (now : Nat) : Bool :=
  match d.lockoutUntil with
  | none => true
  | some lu => decide (lu ≤ now)

/-- Filtering a list twice with the same predicate equals filtering it
once. -/
theorem filter_self_idem {α : Type} (p : α → Bool) (l : List α) :
    (l.filter p).filter p = l.filter p := by
  induction l with
  | nil => rfl
  | cons a t ih =>
    by_cases h : p a = true
    · simp [List.filter_cons, h, ih]
    · simp [List.filter_cons, h, ih]

/-- C4 (amended): while a previously stored lockout is still active,
checkRateLimit denies with the minutes remaining on that lockout, even
if the in-window attempt count has meanwhile dropped below the
maximum; with no active lockout it denies with the full window
(fifteen minutes) and stores a lockout exactly when the in-window count
has reached five, and allows with zero remaining minutes otherwise;
attempts outside the trailing window never influence the decision. -/
theorem C4_rate_limit_semantics (d : AttemptData) (now : Nat) :
    (∀ lu, d.lockoutUntil = some lu → now < lu →
      checkRateLimit d now = (⟨false, ceilMinutes (lu - now)⟩, d)) ∧
    (noActiveLockout d now = true →
      rateLimitMaxAttempts ≤ getFailedAttempts d now →
      checkRateLimit d now =
        (⟨false, ceilMinutes rateLimitWindowMs⟩,
         ⟨recentAttempts d now, some (now + rateLimitWindowMs)⟩)) ∧
    (noActiveLockout d now = true →
      getFailedAttempts d now < rateLimitMaxAttempts →
      checkRateLimit d now = (⟨true, 0⟩, d)) ∧
    (checkRateLimit ⟨recentAttempts d now, d.lockoutUntil⟩ now).1 =
      (checkRateLimit d now).1 ∧
    ceilMinutes rateLimitWindowMs = 15 := by
  have hrec : ∀ lk, recentAttempts ⟨recentAttempts d now, lk⟩ now =
      recentAttempts d now := fun _ => filter_self_idem _ _
  refine ⟨?_, ?_, ?_, ?_, by decide⟩
  · intro lu hlu hlt
    simp [checkRateLimit, hlu, hlt]
  · intro hnl hcnt
    have hcnt2 : rateLimitMaxAttempts ≤ (recentAttempts d now).length := hcnt
    cases hl : d.lockoutUntil with
    | none => simp [checkRateLimit, checkRecent, hl, hcnt2]
    | some lu =>
      have hle : lu ≤ now := by
        rw [noActiveLockout, hl] at hnl
        simpa using hnl
      simp [checkRateLimit, checkRecent, hl, Nat.not_lt.mpr hle, hcnt2]
  · intro hnl hcnt
    have hcnt2 : ¬ rateLimitMaxAttempts ≤ (recentAttempts d now).length :=
      Nat.not_le.mpr hcnt
    cases hl : d.lockoutUntil with
    | none => simp [checkRateLimit, checkRecent, hl, hcnt2]
    | some lu =>
      have hle : lu ≤ now := by
        rw [noActiveLockout, hl] at hnl
        simpa using hnl
      simp [checkRateLimit, checkRecent, hl, Nat.not_lt.mpr hle, hcnt2]
  · cases hl : d.lockoutUntil with
    | none =>
      by_cases hc : rateLimitMaxAttempts ≤ (recentAttempts d now).length
      · simp [checkRateLimit, checkRecent, hl, hrec, hc]
      · simp [checkRateLimit, checkRecent, hl, hrec, hc]
    | some lu =>
      by_cases hlt : now < lu
      · simp [checkRateLimit, hl, hlt]
      · by_cases hc : rateLimitMaxAttempts ≤ (recentAttempts d now).length
        · simp [checkRateLimit, checkRecent, hl, hlt, hrec, hc]
        · simp [checkRateLimit, checkRecent, hl, hlt, hrec, hc]

/-- Witness for C4 at concrete states: an active lockout denies with
its remaining minutes, five in-window attempts deny with fifteen
minutes and store a lockout, and four in-window attempts allow. -/
theorem C4_rate_limit_semantics_witness :
    checkRateLimit ⟨[0], some 120000⟩ 60000 =
      (⟨false, 1⟩, ⟨[0], some 120000⟩) ∧
    checkRateLimit ⟨[0, 0, 0, 0, 0], none⟩ 1 =
      (⟨false, 15⟩, ⟨[0, 0, 0, 0, 0], some 900001⟩) ∧
    checkRateLimit ⟨[0, 0, 0, 0], none⟩ 1 = (⟨true, 0⟩, ⟨[0, 0, 0, 0], none⟩) := by
  refine ⟨?_, ?_, ?_⟩
  · exact (C4_rate_limit_semantics ⟨[0], some 120000⟩ 60000).1 120000 rfl
      (by decide)
  · exact (C4_rate_limit_semantics ⟨[0, 0, 0, 0, 0], none⟩ 1).2.1 (by decide)
      (by decide)
  · exact (C4_rate_limit_semantics ⟨[0, 0, 0, 0], none⟩ 1).2.2.1 (by decide)
      (by decide)

/-- Counterexample to C4 as stated: five failures recorded at time 0
and a check at time 1 store a lockout until 900001; at time 900000 all
attempts have aged out of the window, so the in-window count is 0 and
below the maximum, yet checkRateLimit still denies (with one minute
remaining) because the lockout is active — refuting that the limiter
allows whenever the in-window count is under five. -/
theorem C4_counterexample :
    recordFailedAttempt (recordFailedAttempt (recordFailedAttempt
      (recordFailedAttempt (recordFailedAttempt ⟨[], none⟩ 0) 0) 0) 0) 0 =
      (⟨[0, 0, 0, 0, 0], none⟩ : AttemptData) ∧
    checkRateLimit ⟨[0, 0, 0, 0, 0], none⟩ 1 =
      (⟨false, 15⟩, ⟨[0, 0, 0, 0, 0], some 900001⟩) ∧
    getFailedAttempts ⟨[0, 0, 0, 0, 0], some 900001⟩ 900000 = 0 ∧
    (checkRateLimit ⟨[0, 0, 0, 0, 0], some 900001⟩ 900000).1 =
      ⟨false, 1⟩ := by
  decide

/-- Idle timeout: thirty minutes in milliseconds. -/
def sessionIdleTimeoutMs : Nat := 30 * 60 * 1000

/-- Absolute timeout without remember-me: twenty-four hours. -/
def sessionAbsoluteTimeoutMs : Nat := 24 * 60 * 60 * 1000

/-- Absolute timeout with remember-me: thirty days. -/
def sessionRememberMeTimeoutMs : Nat := 30 * 24 * 60 * 60 * 1000

/-- The stored session-info object. -/
structure SessionInfo where
  createdAt : Nat
  lastActivity : Nat
  rememberMe : Bool
  absoluteExpiry : Nat
deriving DecidableEq, Repr

/-- createSessionInfo: stamps creation and last activity with the
current time and sets the absolute expiry thirty days out with
remember-me, twenty-four hours out otherwise. -/
def createSessionInfo (rememberMe : Bool) (now : Nat) : SessionInfo :=
  { createdAt := now
    lastActivity := now
    rememberMe := rememberMe
    absoluteExpiry :=
      if rememberMe then now + sessionRememberMeTimeoutMs
      else now + sessionAbsoluteTimeoutMs }

/-- What checkSessionValidity reads from storage: no stored session,
stored data whose parse throws, or a parsed session-info object. -/
inductive StoredSession where
  | noData : StoredSession
  | corrupt : StoredSession
  | parsed (s : SessionInfo) : StoredSession
deriving DecidableEq, Repr

/-- checkSessionValidity: with nothing stored or unparsable data it
returns true; otherwise false past the absolute expiry, false past the
idle timeout for non-remember-me sessions, true otherwise. -/
def checkSessionValidity (stored : StoredSession) (now : Nat) : Bool :=
  match stored with
  | .noData => true
  | .corrupt => true
  | .parsed s =>
    if s.absoluteExpiry < now then false
    else if s.rememberMe = false ∧ sessionIdleTimeoutMs < now - s.lastActivity
      then false
    else true

/-- C6: a session started with remember-me expires absolutely thirty
days after creation and twenty-four hours after otherwise, and a parsed
session is valid at a time exactly when that time is not past the
absolute expiry and the session either has remember-me or has been idle
for at most thirty minutes. -/
theorem C6_session_policy :
    (∀ (rememberMe : Bool) (now : Nat),
      (createSessionInfo rememberMe now).absoluteExpiry =
        now + (if rememberMe then 30 * 24 * 60 * 60 * 1000
               else 24 * 60 * 60 * 1000)) ∧
    (∀ (s : SessionInfo) (now : Nat),
      checkSessionValidity (.parsed s) now = true ↔
        (now ≤ s.absoluteExpiry ∧
          (s.rememberMe = true ∨ now - s.lastActivity ≤ 30 * 60 * 1000))) := by
  constructor
  · intro rememberMe now
    cases rememberMe <;>
      simp [createSessionInfo, sessionRememberMeTimeoutMs,
        sessionAbsoluteTimeoutMs]
  · intro s now
    rw [checkSessionValidity]
    by_cases h1 : s.absoluteExpiry < now
    · simp [h1, Nat.not_le.mpr h1]
    · by_cases h2 : s.rememberMe = false ∧
          sessionIdleTimeoutMs < now - s.lastActivity
      · simp only [if_neg h1, if_pos h2]
        constructor
        · intro h
          simp at h
        · rintro ⟨-, h⟩
          rcases h with h | h
          · rw [h2.1] at h
            simp at h
          · exact absurd h2.2 (Nat.not_lt.mpr h)
      · simp only [if_neg h1, if_neg h2]
        constructor
        · intro _
          refine ⟨Nat.not_lt.mp h1, ?_⟩
          cases hx : s.rememberMe with
          | true => exact Or.inl rfl
          | false =>
            refine Or.inr (Nat.not_lt.mp ?_)
            intro hlt
            exact h2 ⟨hx, hlt⟩
        · intro _
          trivial

/-- C10: checkSessionValidity fails open — with no stored session
record, and with stored data that cannot be parsed, it returns true at
every time. -/
theorem C10_session_check_fails_open :
    ∀ now : Nat,
      checkSessionValidity .noData now = true ∧
      checkSessionValidity .corrupt now = true :=
  fun _ => ⟨rfl, rfl⟩

/-- Witness for C6 at concrete sessions: the remember-me expiry at
creation time 0 and the validity of a fresh non-remember-me session one
millisecond in. -/
theorem C6_session_policy_witness :
    (createSessionInfo true 0).absoluteExpiry =
      0 + (if true then 30 * 24 * 60 * 60 * 1000
           else 24 * 60 * 60 * 1000) ∧
    (checkSessionValidity (.parsed (createSessionInfo false 0)) 1 = true ↔
      (1 ≤ (createSessionInfo false 0).absoluteExpiry ∧
        ((createSessionInfo false 0).rememberMe = true ∨
          1 - (createSessionInfo false 0).lastActivity ≤ 30 * 60 * 1000))) :=
  ⟨C6_session_policy.1 true 0, C6_session_policy.2 (createSessionInfo false 0) 1⟩

/-- Witness for C10 at a concrete time. -/
theorem C10_session_check_fails_open_witness :
    checkSessionValidity .noData 5 = true ∧
    checkSessionValidity .corrupt 5 = true :=
  C10_session_check_fails_open 5

/-- Outcome of the auth composable's login function. -/
inductive LoginOutcome where
  | success (session : SessionInfo) : LoginOutcome
  | failure : LoginOutcome
deriving DecidableEq, Repr

/-- The login function of the auth composable, acting on the stored
attempt state: it checks the rate limit and throws when denied (the
catch block then records a failed attempt); otherwise it attempts the
credential sign-in; on success it creates session info and returns,
leaving the attempt state as the rate-limit check left it; on failure
the catch block records a failed attempt. -/
def login (d : AttemptData) (now : Nat) (credentialOk rememberMe : Bool) :
    LoginOutcome × AttemptData :=
  match checkRateLimit d now with
  | (r, d1) =>
    if r.allowed = false then (.failure, recordFailedAttempt d1 now)
    else if credentialOk then
      (.success (createSessionInfo rememberMe now), d1)
    else (.failure, recordFailedAttempt d1 now)

/-- CAPTCHA threshold of the login view: required from three in-window
failures on. -/
def captchaThreshold : Nat := 3

/-- Outcome of the login view's submit handler. -/
inductive HandleOutcome where
  | success (session : SessionInfo) : HandleOutcome
  | rateLimited (minutes : Nat) : HandleOutcome
  | captchaRequired : HandleOutcome
  | invalidCredentials : HandleOutcome
deriving DecidableEq, Repr

/-- The login view's submit handler: its own rate-limit check, the
CAPTCHA gate from three in-window failures, then the auth composable's
login; on success it clears the failed-attempt storage; on failure its
catch block records a further failed attempt. -/
def handleLogin (d : AttemptData) (now : Nat)
    (credentialOk captchaVerified rememberMe : Bool) :
    HandleOutcome × AttemptData :=
  match checkRateLimit d now with
  | (r, d1) =>
    if r.allowed = false then (.rateLimited r.remainingMinutes, d1)
    else if captchaThreshold ≤ getFailedAttempts d1 now ∧
        captchaVerified = false then
      (.captchaRequired, d1)
    else
      match login d1 now credentialOk rememberMe with
      | (.success s, _) => (.success s, clearedAttempts)
      | (.failure, d2) => (.invalidCredentials, recordFailedAttempt d2 now)

/-- C5 (amended): the login function itself never wipes the
failed-attempt history — the wipe is performed by the login view's
submit handler after login resolves successfully.  After any successful
run of that handler the stored attempt state is the cleared state, so
an immediately following checkRateLimit returns allowed with zero
remaining minutes. -/
theorem C5_clear_on_success (d : AttemptData) (now : Nat)
    (credentialOk captchaVerified rememberMe : Bool) (s : SessionInfo)
    (d1 : AttemptData)
    (h : handleLogin d now credentialOk captchaVerified rememberMe =
      (.success s, d1)) :
    d1 = clearedAttempts ∧ (checkRateLimit d1 now).1 = ⟨true, 0⟩ := by
  have hd1 : d1 = clearedAttempts := by
    rw [handleLogin] at h
    rcases hc : checkRateLimit d now with ⟨r, da⟩
    rw [hc] at h
    dsimp only at h
    by_cases h1 : r.allowed = false
    · rw [if_pos h1] at h
      cases h
    · rw [if_neg h1] at h
      by_cases h2 : captchaThreshold ≤ getFailedAttempts da now ∧
          captchaVerified = false
      · rw [if_pos h2] at h
        cases h
      · rw [if_neg h2] at h
        rcases hl : login da now credentialOk rememberMe with ⟨lo, d2⟩
        rw [hl] at h
        cases lo with
        | success s2 =>
          dsimp only at h
          exact (congrArg Prod.snd h).symm
        | failure => cases h
  subst hd1
  exact ⟨rfl, rfl⟩

/-- Witness for C5 at a concrete successful run: with one prior failure
the handler succeeds, leaves the cleared attempt state and the next
rate-limit check allows. -/
theorem C5_clear_on_success_witness :
    clearedAttempts = clearedAttempts ∧
    (checkRateLimit clearedAttempts 1).1 = ⟨true, 0⟩ :=
  C5_clear_on_success ⟨[0], none⟩ 1 true true true (createSessionInfo true 1)
    clearedAttempts (by decide)

/-- Counterexample to C5 as stated: a successful call of the login
function itself, entered with one recorded failure, returns with that
failure still stored — the attempt history is not wiped by login. -/
theorem C5_counterexample :
    (login ⟨[7], none⟩ 8 true false).1 =
      .success (createSessionInfo false 8) ∧
    (login ⟨[7], none⟩ 8 true false).2 = ⟨[7], none⟩ ∧
    (⟨[7], none⟩ : AttemptData) ≠ clearedAttempts := by
  decide

/-- A per-column permission entry of a RolePermission document. -/
structure PermEntry where
  visible : Bool
  editable : Bool
  requiresApproval : Bool
deriving DecidableEq, Repr

/-- A RolePermission document: the role it belongs to and its map from
column key to optional permission entry. -/
structure RolePermission where
  role : String
  permissions : String → Option PermEntry

/-- A column definition (the fields the resolver consults). -/
structure Column where
  key : String
  label : String
  type : String
deriving DecidableEq, Repr

/-- The role_permissions collection: role name to optional document. -/
abbrev Permissions := String → Option RolePermission

/-- getPermission of the columns store: the entry for the role and
column key, defaulting every flag to false when the role document or
the column entry is absent. -/
def getPermission (permissions : Permissions) (role columnKey : String) :
    PermEntry :=
  ((permissions role).bind fun rp => rp.permissions columnKey).getD
    { visible := false, editable := false, requiresApproval := false }

/-- visibleColumns of the columns store: empty without a role document,
otherwise the definitions whose entry exists and has visible true. -/
def visibleColumns (permissions : Permissions) (defs : List Column)
    (role : String) : List Column :=
  match permissions role with
  | none => []
  | some rp =>
    defs.filter fun c =>
      match rp.permissions c.key with
      | some pe => pe.visible
      | none => false

/-- editableColumns of the columns store: empty without a role
document, otherwise the definitions whose entry has editable true. -/
def editableColumns (permissions : Permissions) (defs : List Column)
    (role : String) : List Column :=
  match permissions role with
  | none => []
  | some rp =>
    defs.filter fun c =>
      match rp.permissions c.key with
      | some pe => pe.editable
      | none => false

/-- C9: when the role has no RolePermission document or its document
has no entry for the column key, getPermission yields the all-false
entry, and the key appears in neither visibleColumns nor
editableColumns. -/
theorem C9_absent_entry_all_false (permissions : Permissions)
    (defs : List Column) (role key : String)
    (h : (permissions role).bind (fun rp => rp.permissions key) = none) :
    getPermission permissions role key =
      { visible := false, editable := false, requiresApproval := false } ∧
    key ∉ (visibleColumns permissions defs role).map Column.key ∧
    key ∉ (editableColumns permissions defs role).map Column.key := by
  refine ⟨?_, ?_, ?_⟩
  · rw [getPermission, h]
    rfl
  · intro hmem
    cases hp : permissions role with
    | none => simp [visibleColumns, hp] at hmem
    | some rp =>
      rw [hp, Option.some_bind] at h
      simp only [visibleColumns, hp, List.mem_map] at hmem
      obtain ⟨c, hc, hck⟩ := hmem
      rw [List.mem_filter] at hc
      rw [hck, h] at hc
      simp at hc
  · intro hmem
    cases hp : permissions role with
    | none => simp [editableColumns, hp] at hmem
    | some rp =>
      rw [hp, Option.some_bind] at h
      simp only [editableColumns, hp, List.mem_map] at hmem
      obtain ⟨c, hc, hck⟩ := hmem
      rw [List.mem_filter] at hc
      rw [hck, h] at hc
      simp at hc

/-- Concrete role_permissions table for the C9 witness: jr_sales has an
entry for the price column only. -/
def c9Perms : Permissions := fun r =>
  if r = "jr_sales" then
    some { role := "jr_sales"
           permissions := fun k =>
             if k = "price" then
               some { visible := true, editable := true,
                      requiresApproval := false }
             else none }
  else none

/-- Concrete column definitions for the C9 witness. -/
def c9Defs : List Column :=
  [{ key := "price", label := "Price", type := "number" },
   { key := "qty", label := "Quantity", type := "number" }]

/-- Witness for C9: the qty column has no entry for jr_sales, so its
permission is all-false and it is listed neither as visible nor as
editable. -/
theorem C9_absent_entry_all_false_witness :
    getPermission c9Perms "jr_sales" "qty" =
      { visible := false, editable := false, requiresApproval := false } ∧
    "qty" ∉ (visibleColumns c9Perms c9Defs "jr_sales").map Column.key ∧
    "qty" ∉ (editableColumns c9Perms c9Defs "jr_sales").map Column.key :=
  C9_absent_entry_all_false c9Perms c9Defs "jr_sales" "qty" rfl

end TM4U
